import Mathlib

/-!
# Verification of `linktree-scraper` (`src/scrape.js`)

Shallow embedding of the scraper's core functions and control flow:

* `retry` (scrape.js lines 14-24): bounded retry loop with linear backoff,
  modelled as a trace of (result, number of invocations, delays slept).
* `parseCookies` (lines 34-54): cookie-header parsing; JavaScript
  `String.prototype.split` and `trim` are modelled over `List Char`.
* `sendToWebhook` (lines 57-79): webhook delivery, modelled over an explicit
  fetch-request log and a scripted HTTP response.
* the scroll-convergence loop (lines 148-158): modelled with a fuel bound;
  `none` means the loop has not terminated within the given fuel.
* the in-page extractor (lines 162-194): card selection and per-card
  title/url/clicks extraction over an abstract document model.
* the authentication section (lines 101-144) and the browser lifecycle
  (lines 93-98, 210-212), modelled as explicit branching on scripted
  step outcomes.
-/

namespace Scrape

/-! ## JavaScript string primitives

`String.prototype.split(sep)` with a one-character separator, and
`String.prototype.trim`, modelled over `List Char`.  JS `split` splits at
every occurrence of the separator; `"".split(";")` is `[""]`. -/

/-- JS `s.split(sep)` for a single-character separator. -/
def jsSplitChar (sep : Char) : List Char → List (List Char)
  | [] => [[]]
  | c :: rest =>
    let r := jsSplitChar sep rest
    if c = sep then [] :: r
    else
      match r with
      | [] => [[c]]
      | h :: t => (c :: h) :: t

/-- JS `s.trim()`: strip leading and trailing whitespace. -/
def jsTrim (l : List Char) : List Char :=
  ((l.dropWhile Char.isWhitespace).reverse.dropWhile Char.isWhitespace).reverse

/-! ## `retry` (scrape.js lines 14-24)

```js
async function retry(fn, maxRetries = 3, delay = 1000) {
  for (let i = 0; i < maxRetries; i++) {
    try {
      return await fn();
    } catch (error) {
      console.log(`Attempt ... failed:`, error.message);
      if (i === maxRetries - 1) throw error;
      await new Promise(resolve => setTimeout(resolve, delay * (i + 1)));
    }
  }
}
```

The operation is modelled as `fn : Nat → Except E A` giving the outcome of
each attempt (attempt `i`, 0-indexed).  The trace records the overall
result (`none` models falling off the loop when `maxRetries = 0`, i.e. the
JS function returning `undefined`), how many times `fn` was invoked, and
the list of delays slept between attempts, in order. -/

structure RetryTrace (E A : Type) where
  result : Option (Except E A)
  calls : Nat
  delays : List Nat
  deriving Repr

/-- The loop body of `retry`, at loop index `i`. -/
def retryLoop (fn : Nat → Except E A) (maxRetries delay i : Nat) : RetryTrace E A :=
  if _h : i < maxRetries then
    match fn i with
    | .ok a => ⟨some (.ok a), 1, []⟩
    | .error e =>
      if i = maxRetries - 1 then ⟨some (.error e), 1, []⟩
      else
        let rest := retryLoop fn maxRetries delay (i + 1)
        ⟨rest.result, rest.calls + 1, delay * (i + 1) :: rest.delays⟩
  else ⟨none, 0, []⟩
termination_by maxRetries - i

/-- `retry(fn, maxRetries, delay)` (JS defaults: `maxRetries = 3`, `delay = 1000`). -/
def retry (fn : Nat → Except E A) (maxRetries delay : Nat) : RetryTrace E A :=
  retryLoop fn maxRetries delay 0

/-- Trace of `retryLoop` when every attempt fails: the final error is the
last attempt's own error, `fn` is invoked once per remaining iteration, and
the delays are `delay * (i+1), …, delay * (maxRetries-1)`. -/
theorem retryLoop_allFail (e : Nat → E) (n d : Nat) :
    ∀ m i, n - i = m → i < n →
      retryLoop (fun j => (Except.error (e j) : Except E A)) n d i =
        ⟨some (Except.error (e (n - 1))), n - i,
          (List.range' (i + 1) (n - 1 - i)).map (fun k => d * k)⟩ := by
  intro m
  induction m with
  | zero => intro i hm hi; omega
  | succ m ih =>
    intro i hm hi
    rw [retryLoop]
    simp only [hi, dite_true]
    by_cases hlast : i = n - 1
    · subst hlast
      simp only [if_true]
      have : n - 1 - (n - 1) = 0 := by omega
      simp [this]
      omega
    · have hrec := ih (i + 1) (by omega) (by omega)
      simp only [hlast, if_false, hrec]
      have h2 : n - 1 - i = (n - 1 - (i + 1)) + 1 := by omega
      have h3 : n - (i + 1) + 1 = n - i := by omega
      rw [h2, List.range'_succ, List.map_cons, h3]

/-! ## `parseCookies` (scrape.js lines 34-54)

```js
function parseCookies(cookieString) {
  const cookies = [];
  const pairs = cookieString.split(';');
  for (const pair of pairs) {
    const [name, value] = pair.trim().split('=');
    if (name && value) {
      cookies.push({ name: name.trim(), value: value.trim(),
                     domain: '.linktr.ee', path: '/', httpOnly: false,
                     secure: true, sameSite: 'Lax' });
    }
  }
  return cookies;
}
```

`pair.trim().split('=')` splits at *every* `=`; the array destructuring
keeps only the first two parts.  `name && value` is JS string truthiness:
both must be non-empty (before the inner `trim`). -/

structure Cookie where
  name : String
  value : String
  domain : String
  path : String
  httpOnly : Bool
  secure : Bool
  sameSite : String
  deriving Repr, DecidableEq

/-- Build the Playwright cookie object pushed by `parseCookies`. -/
def mkCookie (name value : String) : Cookie :=
  ⟨name, value, ".linktr.ee", "/", false, true, "Lax"⟩

/-- One iteration of the `for (const pair of pairs)` loop. -/
def parseCookieSegment (pair : List Char) : Option Cookie :=
  match jsSplitChar '=' (jsTrim pair) with
  | name :: value :: _ =>
    if name ≠ [] ∧ value ≠ [] then
      some (mkCookie (String.mk (jsTrim name)) (String.mk (jsTrim value)))
    else none
  | _ => none

/-- `parseCookies(cookieString)`. -/
def parseCookies (cookieString : String) : List Cookie :=
  (jsSplitChar ';' cookieString.data).filterMap parseCookieSegment

/-- The (name, value) credential pairs of a cookie list. -/
def cookiePairs (cs : List Cookie) : List (String × String) :=
  cs.map (fun c => (c.name, c.value))

/-- The spec's reading of `parseCookies`, per its own words: split on `;`,
then split each segment on the *first* `=` only, "so a value may itself
contain `=` characters"; drop segments with no `=`, empty name or empty
value.  Kept separate from `parseCookies` (which models the code) to compare
the two. -/
def parseCookiesSpec (cookieString : String) : List (String × String) :=
  (jsSplitChar ';' cookieString.data).filterMap (fun pair =>
    let t := jsTrim pair
    let name := t.takeWhile (fun c => c ≠ '=')
    match t.dropWhile (fun c => c ≠ '=') with
    | [] => none
    | _ :: value =>
      if name ≠ [] ∧ value ≠ [] then
        some (String.mk (jsTrim name), String.mk (jsTrim value))
      else none)

/-! ## `sendToWebhook` (scrape.js lines 57-79)

```js
async function sendToWebhook(data) {
  try {
    const response = await fetch(WEBHOOK_URL, { method: 'POST', ...,
      body: JSON.stringify(data) });
    const responseText = await response.text();
    console.log(...);
    if (!response.ok) {
      throw new Error(`Webhook failed: ${response.status} ${responseText}`);
    }
    return responseText;
  } catch (error) { console.error(...); throw error; }
}
```

`fetch` is modelled as appending the serialized request body to an explicit
request log and returning the scripted response; `response.ok` is status in
200..299.  The `catch` only logs and rethrows the same error unchanged. -/

structure HttpResponse where
  status : Nat
  bodyText : String
  deriving Repr, DecidableEq

/-- The error thrown on a non-2xx response: `Webhook failed: ${status} ${text}`,
carrying both the status and the body text. -/
structure WebhookError where
  status : Nat
  bodyText : String
  deriving Repr, DecidableEq

/-- `response.ok`: the status is in the inclusive range 200..299. -/
def respOk (r : HttpResponse) : Bool :=
  200 ≤ r.status ∧ r.status ≤ 299

/-- One `fetch` POST: the body is appended to the request log, the scripted
response is returned. -/
def fetchPost (requestLog : List String) (body : String) (resp : HttpResponse) :
    List String × HttpResponse :=
  (requestLog ++ [body], resp)

/-- `sendToWebhook(data)` given the scripted response of the endpoint:
returns the updated request log and either the response body text or the
thrown `WebhookError`. -/
def sendToWebhook (requestLog : List String) (data : String) (resp : HttpResponse) :
    List String × Except WebhookError String :=
  let (log, response) := fetchPost requestLog data resp
  if respOk response then (log, .ok response.bodyText)
  else (log, .error ⟨response.status, response.bodyText⟩)

/-! ## The scroll-convergence loop (scrape.js lines 148-158)

```js
await retry(async () => {
  let previousHeight = 0;
  let currentHeight = await page.evaluate(() => document.body.scrollHeight);
  while (currentHeight > previousHeight) {
    await page.evaluate(() => window.scrollTo(0, document.body.scrollHeight));
    await page.waitForTimeout(2000);
    previousHeight = currentHeight;
    currentHeight = await page.evaluate(() => document.body.scrollHeight);
  }
});
```

`measure j` is the (j+1)-th height measurement.  The loop has no iteration
bound in the source; `fuel` bounds the observation only, and `none` means
the loop has not terminated within `fuel` iterations.  The returned number
is the count of scroll iterations executed. -/

/-- The height against which the (j+1)-th measurement is compared:
`previousHeight` starts at 0 and is then the previous measurement. -/
def scrollPrev (measure : Nat → Nat) : Nat → Nat
  | 0 => 0
  | j + 1 => measure j

/-- The `while (currentHeight > previousHeight)` loop, entered with
`previousHeight = prev` just before comparing against `measure j`. -/
def scrollLoopAux (measure : Nat → Nat) : Nat → Nat → Nat → Option Nat
  | 0, _, _ => none
  | fuel + 1, prev, j =>
    if prev < measure j then scrollLoopAux measure fuel (measure j) (j + 1)
    else some j

/-- The whole loop body: `previousHeight = 0`, first measurement, loop.
Returns the number of scroll iterations, or `none` if `fuel` iterations did
not suffice to terminate. -/
def scrollLoop (measure : Nat → Nat) (fuel : Nat) : Option Nat :=
  scrollLoopAux measure fuel 0 0

/-- Soundness of the loop: if it terminates after `r` iterations (starting
at measurement `j` with the invariant `prev = scrollPrev measure j`), then
measurement `r` did not exceed its predecessor and every earlier
measurement strictly exceeded its predecessor. -/
theorem scrollLoopAux_sound (measure : Nat → Nat) :
    ∀ fuel j r, scrollLoopAux measure fuel (scrollPrev measure j) j = some r →
      j ≤ r ∧ measure r ≤ scrollPrev measure r ∧
        ∀ i, j ≤ i → i < r → scrollPrev measure i < measure i := by
  intro fuel
  induction fuel with
  | zero => intro j r h; simp [scrollLoopAux] at h
  | succ fuel ih =>
    intro j r h
    rw [scrollLoopAux] at h
    by_cases hc : scrollPrev measure j < measure j
    · simp only [hc, if_true] at h
      have hnext : measure j = scrollPrev measure (j + 1) := rfl
      rw [hnext] at h
      obtain ⟨h1, h2, h3⟩ := ih (j + 1) r h
      refine ⟨by omega, h2, ?_⟩
      intro i hji hir
      rcases Nat.eq_or_lt_of_le hji with heq | hlt
      · exact heq ▸ hc
      · exact h3 i hlt hir
    · simp only [hc, if_false, Option.some.injEq] at h
      subst h
      exact ⟨Nat.le_refl j, Nat.le_of_not_lt hc, fun i h1 h2 => by omega⟩

/-- Completeness of the loop: if the first `r` measurements each strictly
exceed their predecessor and measurement `r` does not, the loop terminates
after exactly `r` iterations given any fuel above `r`. -/
theorem scrollLoopAux_complete (measure : Nat → Nat) :
    ∀ fuel j r, j ≤ r → r - j < fuel →
      (∀ i, j ≤ i → i < r → scrollPrev measure i < measure i) →
      measure r ≤ scrollPrev measure r →
      scrollLoopAux measure fuel (scrollPrev measure j) j = some r := by
  intro fuel
  induction fuel with
  | zero => intro j r h1 h2; omega
  | succ fuel ih =>
    intro j r hjr hfuel hinc hstop
    rw [scrollLoopAux]
    rcases Nat.eq_or_lt_of_le hjr with heq | hlt
    · subst heq
      simp [Nat.not_lt_of_le hstop]
    · have hj : scrollPrev measure j < measure j := hinc j (Nat.le_refl j) hlt
      simp only [hj, if_true]
      have hnext : measure j = scrollPrev measure (j + 1) := rfl
      rw [hnext]
      exact ih (j + 1) r (by omega) (by omega) (fun i hi => hinc i (by omega)) hstop

/-! ## The in-page extractor (scrape.js lines 162-194)

```js
const cards = document.querySelectorAll(
  '[data-testid="link-card"], .link-card, [class*="link-card"]');
...
const clicks = clickElement
  ? parseInt(clickElement.textContent.match(/(\d+)/)?.[1] || 0) : 0;
const titleElement = ...;
const title = titleElement?.value || titleElement?.textContent?.trim() || '';
const urlElement = card.querySelector('a[href^="http"]');
const url = urlElement?.href || '';
if (title && url) { links.push({ title, url, clicks }); }
```

(The `clicks` line of the source is missing a closing parenthesis after
`|| 0`; the evident intended expression, matching the surrounding code and
the regex, is modelled.)

A card-candidate element is modelled by its selector-relevant attributes
(`data-testid` and `class`) together with the resolved per-card inputs of
the extraction: the text content of the click element (if one was found by
either the class-based selector or the digit-text scan), the title element
(if found), and the `href` of the first `a[href^="http"]` descendant. -/

structure TitleEl where
  value : Option String
  textContent : Option String
  deriving Repr, DecidableEq

structure Element where
  testid : Option String
  className : String
  clickText : Option String
  titleEl : Option TitleEl
  anchorHref : Option String
  deriving Repr, DecidableEq

structure LinkRecord where
  title : String
  url : String
  clicks : Nat
  deriving Repr, DecidableEq

/-- `[data-testid="link-card"]`. -/
def matchTestid (e : Element) : Bool :=
  e.testid = some "link-card"

/-- `.link-card`: `"link-card"` is one of the space-separated class
names. -/
def matchClassWord (e : Element) : Bool :=
  (jsSplitChar ' ' e.className.data).contains "link-card".data

/-- Whether the first list is a prefix of the second (as a Bool). -/
def startsWithChars : List Char → List Char → Bool
  | [], _ => true
  | _ :: _, [] => false
  | p :: ps, c :: cs => p = c && startsWithChars ps cs

/-- Whether `pat` occurs contiguously inside the second list. -/
def containsChars (pat : List Char) : List Char → Bool
  | [] => startsWithChars pat []
  | c :: rest => startsWithChars pat (c :: rest) || containsChars pat rest

/-- Substring containment test (JS `String.prototype.includes`, CSS `*=`). -/
def strContainsStr (s pat : String) : Bool :=
  containsChars pat.data s.data

/-- `[class*="link-card"]`: the class attribute contains `"link-card"` as a
substring. -/
def matchClassSubstr (e : Element) : Bool :=
  strContainsStr e.className "link-card"

/-- `document.querySelectorAll('[data-testid="link-card"], .link-card,
[class*="link-card"]')`: a CSS selector *list*; the result is every element
matching any of the three selectors, in document order. -/
def selectCards (doc : List Element) : List Element :=
  doc.filter (fun e => matchTestid e || matchClassWord e || matchClassSubstr e)

/-- The claim's reading of the card query: evaluate the three selectors in
priority order and accept the first one yielding any matches.  Kept
separate from `selectCards` (which models the code) to compare the two. -/
def selectCardsPrioritized (doc : List Element) : List Element :=
  let l1 := doc.filter matchTestid
  if l1 ≠ [] then l1
  else
    let l2 := doc.filter matchClassWord
    if l2 ≠ [] then l2
    else doc.filter matchClassSubstr

/-- The first contiguous digit run of a character list (the capture of the
regex `/(\d+)/`), or `[]` when the string has no digit (no match). -/
def firstDigitRun (l : List Char) : List Char :=
  (l.dropWhile (fun c => !c.isDigit)).takeWhile Char.isDigit

/-- Numeric value of a digit run (`parseInt` on an all-digit string). -/
def digitsVal (l : List Char) : Nat :=
  l.foldl (fun n c => 10 * n + (c.toNat - 48)) 0

/-- `clickElement ? parseInt(clickElement.textContent.match(/(\d+)/)?.[1] || 0) : 0`:
no click element, or a click element whose text has no digit, gives 0;
otherwise the value of the first contiguous digit group. -/
def parseClicks (clickText : Option String) : Nat :=
  match clickText with
  | none => 0
  | some t =>
    match firstDigitRun t.data with
    | [] => 0
    | run => digitsVal run

/-- `titleElement?.value || titleElement?.textContent?.trim() || ''`
(JS `||`: the empty string is falsy). -/
def extractTitle (t : Option TitleEl) : String :=
  match t with
  | none => ""
  | some el =>
    let v := el.value.getD ""
    if v ≠ "" then v
    else
      match el.textContent with
      | none => ""
      | some txt => String.mk (jsTrim txt.data)

/-- One iteration of the per-card loop: build the record, push it only if
both title and url are non-empty (JS truthiness of `title && url`). -/
def extractCard (e : Element) : Option LinkRecord :=
  let clicks := parseClicks e.clickText
  let title := extractTitle e.titleEl
  let url := e.anchorHref.getD ""
  if title ≠ "" ∧ url ≠ "" then some ⟨title, url, clicks⟩ else none

/-- The whole `page.evaluate` extractor: select the cards, extract each,
keep the pushed records in document order. -/
def extractLinks (doc : List Element) : List LinkRecord :=
  (selectCards doc).filterMap extractCard

/-! ## Authentication (scrape.js lines 101-144)

```js
if (LT_COOKIE) {
  try {
    const cookies = parseCookies(LT_COOKIE);
    await context.addCookies(cookies);
    await page.goto('https://linktr.ee/admin/links', ...);
    const currentUrl = page.url();
    if (currentUrl.includes('/login')) {
      throw new Error('Cookie authentication failed - redirected to login');
    }
  } catch (error) {
    if (!LINKTREE_EMAIL || !LINKTREE_PASSWORD) {
      throw new Error('Cookie authentication failed and no login credentials available');
    }
    await retry(async () => { ...login... });
  }
} else { ...credential login or NoAuthMethodAvailable... }
```

`parseCookies` is a total function of the cookie string (it cannot throw),
so the fallible steps of the cookie path are the cookie injection, the
navigation, and the redirect check; each is scripted by its outcome.  The
`catch` wraps the whole block, so an error from any of them reaches the
fallback. -/

/-- `currentUrl.includes('/login')`. -/
def urlIncludesLogin (url : String) : Bool :=
  strContainsStr url "/login"

/-- Scripted outcomes of the fallible steps of the cookie-authentication
try block. -/
structure CookieAuthEnv where
  addCookiesResult : Except String Unit
  gotoResult : Except String Unit
  landedUrl : String
  deriving Repr

/-- The cookie-authentication try block (lines 103-114): inject cookies,
navigate, check for a login redirect; the first error short-circuits. -/
def cookieAuthTry (env : CookieAuthEnv) : Except String Unit := do
  env.addCookiesResult
  env.gotoResult
  if urlIncludesLogin env.landedUrl then
    Except.error "Cookie authentication failed - redirected to login"
  else pure ()

/-- How the run authenticated, or the fatal error it threw. -/
inductive AuthOutcome where
  | cookieAuthed
  | credsAuthed
  | failed (msg : String)
  deriving Repr, DecidableEq

/-- The fallback/no-cookie login path: fail without credentials, otherwise
the scripted outcome of the retry-wrapped login decides. -/
def credentialLogin (hasEmail hasPassword : Bool) (noCredsMsg : String)
    (loginResult : Except String Unit) : AuthOutcome :=
  if !hasEmail || !hasPassword then .failed noCredsMsg
  else
    match loginResult with
    | .ok _ => .credsAuthed
    | .error e => .failed e

/-- The whole authentication section (lines 101-144). -/
def resolveSession (cookiePresent : Bool) (env : CookieAuthEnv)
    (hasEmail hasPassword : Bool) (loginResult : Except String Unit) : AuthOutcome :=
  if cookiePresent then
    match cookieAuthTry env with
    | .ok _ => .cookieAuthed
    | .error _ =>
      credentialLogin hasEmail hasPassword
        "Cookie authentication failed and no login credentials available" loginResult
  else
    credentialLogin hasEmail hasPassword
      "No authentication method available" loginResult

/-! ## Browser lifecycle (scrape.js lines 93-98, 99-212)

```js
const browser = await chromium.launch({ headless: true });
const context = await browser.newContext({ userAgent: ... });
const page = await context.newPage();
try {
  ...pipeline...
} catch (error) { console.error(...); throw error; }
finally { await browser.close(); }
```

`newContext` and `newPage` run *before* the `try`, so a failure in either
propagates without reaching the `finally`.  The pipeline body is scripted
by its outcome. -/

structure RunEnv where
  newContextResult : Except String Unit
  newPageResult : Except String Unit
  pipelineResult : Except String Unit
  deriving Repr

structure RunTrace where
  browserClosed : Bool
  outcome : Except String Unit
  deriving Repr

/-- `main` after the browser launch: context and page creation outside the
`try`, then the pipeline under `try`/`catch`/`finally { browser.close() }`.
The `catch` rethrows, so the outcome of the `try` block is the pipeline's
own result either way. -/
def mainRun (env : RunEnv) : RunTrace :=
  match env.newContextResult with
  | .error e => ⟨false, .error e⟩
  | .ok _ =>
    match env.newPageResult with
    | .error e => ⟨false, .error e⟩
    | .ok _ => ⟨true, env.pipelineResult⟩

/-! ## Claims -/

/-- C1: for every `maxRetries = n` (`n` positive) and every operation that
fails on all attempts, `retry` invokes the operation exactly `n` times and
the error finally raised is the last attempt's own error, unchanged and
unwrapped. -/
theorem C1_retry_allFail {E : Type} (e : Nat → E) (n d : Nat) (hn : 0 < n) :
    (retry (fun j => (Except.error (e j) : Except E Unit)) n d).calls = n ∧
    (retry (fun j => (Except.error (e j) : Except E Unit)) n d).result =
      some (Except.error (e (n - 1))) := by
  have h : retryLoop (fun j => (Except.error (e j) : Except E Unit)) n d 0 =
      ⟨some (Except.error (e (n - 1))), n - 0,
        (List.range' (0 + 1) (n - 1 - 0)).map (fun k => d * k)⟩ :=
    retryLoop_allFail e n d (n - 0) 0 rfl hn
  rw [retry, h]
  exact ⟨by simp, rfl⟩

/-- Witness for C1: three attempts, each failing with its own index as
error; the operation runs 3 times and the final error is attempt 3's. -/
theorem C1_witness :
    (retry (fun j => (Except.error j : Except Nat Unit)) 3 1000).calls = 3 ∧
    (retry (fun j => (Except.error j : Except Nat Unit)) 3 1000).result =
      some (Except.error 2) :=
  C1_retry_allFail (fun j => j) 3 1000 (by decide)

/-- C9: for every `k` with `1 ≤ k < maxRetries`, the delay `retry` waits
between failed attempt `k` and attempt `k+1` (both 1-indexed) equals
`baseDelay * k`, and there are exactly `maxRetries - 1` delays in all — in
particular none after the final attempt. -/
theorem C9_retry_delays {E : Type} (e : Nat → E) (n d : Nat) :
    (∀ k, 1 ≤ k → k < n →
      ((retry (fun j => (Except.error (e j) : Except E Unit)) n d).delays)[k - 1]? =
        some (d * k)) ∧
    ((retry (fun j => (Except.error (e j) : Except E Unit)) n d).delays).length = n - 1 := by
  rcases Nat.eq_zero_or_pos n with hz | hn
  · subst hz
    rw [retry, retryLoop]
    exact ⟨fun k h1 h2 => by omega, rfl⟩
  · have h : retryLoop (fun j => (Except.error (e j) : Except E Unit)) n d 0 =
        ⟨some (Except.error (e (n - 1))), n - 0,
          (List.range' (0 + 1) (n - 1 - 0)).map (fun k => d * k)⟩ :=
      retryLoop_allFail e n d (n - 0) 0 rfl hn
    rw [retry, h]
    constructor
    · intro k h1 h2
      have hk : k - 1 < n - 1 - 0 := by omega
      rw [List.getElem?_map, List.getElem?_range' _ _ hk]
      simp only [Option.map_some']
      have hkk : 0 + 1 + 1 * (k - 1) = k := by omega
      rw [hkk]
    · simp

/-- Witness for C9: `maxRetries = 3`, `baseDelay = 1000`: the delay after
failed attempt 1 is 1000. -/
theorem C9_witness :
    ((retry (fun j => (Except.error j : Except Nat Unit)) 3 1000).delays)[0]? =
      some 1000 ∧
    ((retry (fun j => (Except.error j : Except Nat Unit)) 3 1000).delays).length = 2 :=
  ⟨(C9_retry_delays (fun j => j) 3 1000).1 1 (by decide) (by decide),
   (C9_retry_delays (fun j => j) 3 1000).2⟩

/-- C5: `sendToWebhook` issues a single POST (the request log grows by
exactly the one serialized body, whatever the response), reads the body
text regardless of status; a non-2xx response makes it fail with an error
carrying the status and the body text, a 2xx response makes it return the
body text. -/
theorem C5_sendToWebhook (requestLog : List String) (data : String) (resp : HttpResponse) :
    (sendToWebhook requestLog data resp).1 = requestLog ++ [data] ∧
    (respOk resp = true →
      (sendToWebhook requestLog data resp).2 = Except.ok resp.bodyText) ∧
    (respOk resp = false →
      (sendToWebhook requestLog data resp).2 =
        Except.error ⟨resp.status, resp.bodyText⟩) := by
  refine ⟨?_, ?_, ?_⟩
  · by_cases h : respOk resp <;> simp [sendToWebhook, fetchPost, h]
  · intro h; simp [sendToWebhook, fetchPost, h]
  · intro h; simp [sendToWebhook, fetchPost, h]

/-- Witness for C5: the spec's scenario C — HTTP 500 with body `"error"`
produces exactly one request and the error carries status 500 and the
body. -/
theorem C5_witness :
    (sendToWebhook [] "batch" ⟨500, "error"⟩).1 = [] ++ ["batch"] ∧
    (sendToWebhook [] "batch" ⟨500, "error"⟩).2 = Except.error ⟨500, "error"⟩ :=
  ⟨(C5_sendToWebhook [] "batch" ⟨500, "error"⟩).1,
   (C5_sendToWebhook [] "batch" ⟨500, "error"⟩).2.2 (by decide)⟩

/-- C8 counterexample: when `context.newPage()` fails (a failure while
creating the page, before the `try` block is entered), the error
propagates but the browser is never closed — refuting "on every exit path
the launched browser is closed". -/
theorem C8_counterexample :
    (mainRun ⟨Except.ok (), Except.error "newPage failed", Except.ok ()⟩).browserClosed
        = false ∧
    (mainRun ⟨Except.ok (), Except.error "newPage failed", Except.ok ()⟩).outcome
        = Except.error "newPage failed" := by
  exact ⟨rfl, rfl⟩

/-- C8 (amended): once context and page creation succeed — i.e. on every
exit path of the `try` block, success or failure of any pipeline stage —
the browser is closed and the pipeline's own outcome propagates; failures
while creating the browsing context or page, which happen before the
`try`, skip the `finally` and leak the browser. -/
theorem C8_amended (env : RunEnv)
    (hctx : env.newContextResult = Except.ok ())
    (hpage : env.newPageResult = Except.ok ()) :
    (mainRun env).browserClosed = true ∧ (mainRun env).outcome = env.pipelineResult := by
  rcases env with ⟨ctx, page, pipe⟩
  simp only at hctx hpage
  subst hctx hpage
  exact ⟨rfl, rfl⟩

/-- Witness for C8 (amended): a run whose pipeline stage fails still closes
the browser and rethrows the stage's error. -/
theorem C8_witness :
    (mainRun ⟨Except.ok (), Except.ok (), Except.error "login timeout"⟩).browserClosed
        = true ∧
    (mainRun ⟨Except.ok (), Except.ok (), Except.error "login timeout"⟩).outcome
        = Except.error "login timeout" :=
  C8_amended ⟨Except.ok (), Except.ok (), Except.error "login timeout"⟩ rfl rfl

/-- C4 counterexample: the loop's guard is `currentHeight > previousHeight`,
so a *shrinking* measurement also terminates it: for the height sequence
`[100, 50, …]` the loop stops after 1 iteration although the two
consecutive measurements 100 and 50 are not equal — refuting "terminates
exactly when two consecutive height measurements are equal". -/
theorem C4_counterexample :
    scrollLoop (fun j => if j = 0 then 100 else 50) 10 = some 1 ∧
    ¬ (fun j => if j = 0 then 100 else 50 : Nat → Nat) 1 =
      (fun j => if j = 0 then 100 else 50 : Nat → Nat) 0 := by
  exact ⟨by decide, by decide⟩

/-- C4 (amended): the scroll loop terminates exactly when a new height
measurement does not strictly exceed the previous one (every earlier
measurement strictly exceeded its predecessor, the final one does not — in
particular it never terminates while each new measurement strictly exceeds
the previous one), and for the scripted height sequence `[100, 200, 200]`
it performs exactly 2 scroll iterations. -/
theorem C4_amended :
    (∀ measure fuel r, scrollLoop measure fuel = some r →
      measure r ≤ scrollPrev measure r ∧
        ∀ i, i < r → scrollPrev measure i < measure i) ∧
    (∀ measure r, (∀ i, i < r → scrollPrev measure i < measure i) →
      measure r ≤ scrollPrev measure r →
      ∀ fuel, r < fuel → scrollLoop measure fuel = some r) ∧
    (∀ measure, (∀ j, scrollPrev measure j < measure j) →
      ∀ fuel, scrollLoop measure fuel = none) ∧
    scrollLoop (fun j => [100, 200, 200].getD j 200) 10 = some 2 := by
  refine ⟨?_, ?_, ?_, by decide⟩
  · intro m fuel r h
    have hs := scrollLoopAux_sound m fuel 0 r h
    exact ⟨hs.2.1, fun i hir => hs.2.2 i (Nat.zero_le i) hir⟩
  · intro m r hinc hstop fuel hfuel
    exact scrollLoopAux_complete m fuel 0 r (Nat.zero_le r) (by omega)
      (fun i _ => hinc i) hstop
  · intro m hgrow fuel
    cases h : scrollLoop m fuel with
    | none => rfl
    | some r =>
      have hs := scrollLoopAux_sound m fuel 0 r h
      exact absurd hs.2.1 (Nat.not_le_of_lt (hgrow r))

/-- Witness for C4 (amended): the scripted sequence `[100, 200, 200]` —
measurements 1 and 2 each exceed their predecessor, measurement 3 does not,
and the loop with ample fuel stops after exactly 2 iterations. -/
theorem C4_witness :
    scrollLoop (fun j => [100, 200, 200].getD j 200) 10 = some 2 :=
  C4_amended.2.1 (fun j => [100, 200, 200].getD j 200) 2
    (by decide) (by decide) 10 (by decide)

/-- C7 counterexample: the card query is the single CSS selector list
`'[data-testid="link-card"], .link-card, [class*="link-card"]'`, whose
result is the *union* of the three selectors' matches.  With one element
matched only by the first selector and another matched only by the later
ones, both are selected — under the claim's first-non-empty-selector
reading, only the first would be. -/
theorem C7_counterexample :
    selectCards
        [⟨some "link-card", "", none, none, none⟩,
         ⟨none, "link-card", none, none, none⟩] =
      [⟨some "link-card", "", none, none, none⟩,
       ⟨none, "link-card", none, none, none⟩] ∧
    selectCardsPrioritized
        [⟨some "link-card", "", none, none, none⟩,
         ⟨none, "link-card", none, none, none⟩] =
      [⟨some "link-card", "", none, none, none⟩] ∧
    ¬ selectCards
        [⟨some "link-card", "", none, none, none⟩,
         ⟨none, "link-card", none, none, none⟩] =
      selectCardsPrioritized
        [⟨some "link-card", "", none, none, none⟩,
         ⟨none, "link-card", none, none, none⟩] := by
  exact ⟨by decide, by decide, by decide⟩

/-- C7 (amended): card elements are selected by one selector-list query —
an element is selected iff it is in the document and matches *any* of the
three selectors; in particular an element matching only a later selector is
included even when earlier selectors have matches. -/
theorem C7_amended :
    (∀ doc e, e ∈ selectCards doc ↔
      e ∈ doc ∧ (matchTestid e || matchClassWord e || matchClassSubstr e) = true) ∧
    (∀ doc e, e ∈ doc →
      (matchTestid e || matchClassWord e || matchClassSubstr e) = true →
      e ∈ selectCards doc) := by
  constructor
  · intro doc e
    simp [selectCards, List.mem_filter]
  · intro doc e he hm
    simp [selectCards, List.mem_filter, he, hm]

/-- Witness for C7 (amended): the element matched only by the class
selectors is selected from the two-element document of the
counterexample. -/
theorem C7_witness :
    (⟨none, "link-card", none, none, none⟩ : Element) ∈
      selectCards
        [⟨some "link-card", "", none, none, none⟩,
         ⟨none, "link-card", none, none, none⟩] :=
  C7_amended.2
    [⟨some "link-card", "", none, none, none⟩,
     ⟨none, "link-card", none, none, none⟩]
    ⟨none, "link-card", none, none, none⟩ (by decide) (by decide)

/-- C10: with cookie material present, an error from any step of the
cookie-authentication path — cookie injection, navigation, or the
login-redirect check (`parseCookies` is a total function and cannot raise)
— makes the try block fail, which triggers the fallback; without
credentials the run then fails with the cookie-auth-failed-no-fallback
error, with credentials the retry-wrapped login decides the outcome. -/
theorem C10_cookie_fallback :
    (∀ env : CookieAuthEnv, ∀ e, env.addCookiesResult = Except.error e →
      cookieAuthTry env = Except.error e) ∧
    (∀ env : CookieAuthEnv, ∀ e, env.addCookiesResult = Except.ok () →
      env.gotoResult = Except.error e → cookieAuthTry env = Except.error e) ∧
    (∀ env : CookieAuthEnv, env.addCookiesResult = Except.ok () →
      env.gotoResult = Except.ok () → urlIncludesLogin env.landedUrl = true →
      cookieAuthTry env =
        Except.error "Cookie authentication failed - redirected to login") ∧
    (∀ env : CookieAuthEnv, ∀ hasE hasP : Bool, ∀ login, ∀ e,
      cookieAuthTry env = Except.error e → (hasE && hasP) = false →
      resolveSession true env hasE hasP login =
        AuthOutcome.failed
          "Cookie authentication failed and no login credentials available") ∧
    (∀ env : CookieAuthEnv, ∀ hasE hasP : Bool, ∀ login, ∀ e,
      cookieAuthTry env = Except.error e → (hasE && hasP) = true →
      resolveSession true env hasE hasP login =
        (match login with
         | Except.ok _ => AuthOutcome.credsAuthed
         | Except.error m => AuthOutcome.failed m)) := by
  refine ⟨?_, ?_, ?_, ?_, ?_⟩
  · rintro ⟨ac, gt, url⟩ e h
    simp only at h
    subst h
    rfl
  · rintro ⟨ac, gt, url⟩ e h1 h2
    simp only at h1 h2
    subst h1 h2
    rfl
  · rintro ⟨ac, gt, url⟩ h1 h2 h3
    simp only at h1 h2 h3
    subst h1 h2
    simp only [cookieAuthTry, h3, if_true]
    rfl
  · intro env hasE hasP login e hcat hcreds
    cases hasE <;> cases hasP <;>
      simp_all [resolveSession, credentialLogin]
  · intro env hasE hasP login e hcat hcreds
    cases hasE <;> cases hasP <;>
      simp_all [resolveSession, credentialLogin]

/-- Witness for C10: cookies injected and navigation fine, but the landing
URL contains `/login`; without credentials the run fails with the
no-fallback error, with credentials a successful login authenticates. -/
theorem C10_witness :
    cookieAuthTry ⟨Except.ok (), Except.ok (), "https://linktr.ee/login"⟩ =
      Except.error "Cookie authentication failed - redirected to login" ∧
    resolveSession true ⟨Except.ok (), Except.ok (), "https://linktr.ee/login"⟩
        false false (Except.ok ()) =
      AuthOutcome.failed
        "Cookie authentication failed and no login credentials available" ∧
    resolveSession true ⟨Except.ok (), Except.ok (), "https://linktr.ee/login"⟩
        true true (Except.ok ()) = AuthOutcome.credsAuthed := by
  have h := C10_cookie_fallback.2.2.1
    ⟨Except.ok (), Except.ok (), "https://linktr.ee/login"⟩ rfl rfl (by decide)
  exact ⟨h,
    C10_cookie_fallback.2.2.2.1
      ⟨Except.ok (), Except.ok (), "https://linktr.ee/login"⟩
      false false (Except.ok ()) _ h rfl,
    C10_cookie_fallback.2.2.2.2
      ⟨Except.ok (), Except.ok (), "https://linktr.ee/login"⟩
      true true (Except.ok ()) _ h rfl⟩

/-- C2: the record extractor never emits a record with an empty title or
empty url — every emitted record has both non-empty — and a document with
zero matching cards yields the empty sequence. -/
theorem C2_extract_invariant :
    (∀ doc : List Element, ∀ r ∈ extractLinks doc, r.title ≠ "" ∧ r.url ≠ "") ∧
    (∀ doc : List Element, selectCards doc = [] → extractLinks doc = []) := by
  constructor
  · intro doc r hr
    rw [extractLinks, List.mem_filterMap] at hr
    obtain ⟨e, _, hce⟩ := hr
    simp only [extractCard] at hce
    split at hce
    · rename_i hcond
      cases hce
      exact hcond
    · exact absurd hce (by simp)
  · intro doc h
    rw [extractLinks, h]
    rfl

/-- Witness for C2: a fully-populated card yields a record with non-empty
title and url, and a document whose lone element matches no card selector
yields the empty sequence. -/
theorem C2_witness :
    ((⟨"My Link", "https://a.b", 5⟩ : LinkRecord).title ≠ "" ∧
      (⟨"My Link", "https://a.b", 5⟩ : LinkRecord).url ≠ "") ∧
    extractLinks [⟨none, "nav", none, none, none⟩] = [] :=
  ⟨C2_extract_invariant.1
      [⟨some "link-card", "", some "5 clicks",
        some ⟨none, some "My Link"⟩, some "https://a.b"⟩]
      ⟨"My Link", "https://a.b", 5⟩ (by decide),
   C2_extract_invariant.2 [⟨none, "nav", none, none, none⟩] (by decide)⟩

/-- The regex `/(\d+)/` has a match exactly when the text has a digit; when
it does, the capture is the first contiguous digit run, which is
non-empty. -/
theorem firstDigitRun_ne_nil (l : List Char) (h : l.any Char.isDigit = true) :
    firstDigitRun l ≠ [] := by
  induction l with
  | nil => simp at h
  | cons c cs ih =>
    by_cases hc : c.isDigit
    · simp [firstDigitRun, List.dropWhile_cons, hc]
    · have h' : cs.any Char.isDigit = true := by
        simp only [List.any_cons, hc, Bool.false_or] at h
        exact h
      have hcs := ih h'
      simpa [firstDigitRun, List.dropWhile_cons, hc] using hcs

/-- With no digit in the text the regex does not match: the first digit run
is empty. -/
theorem firstDigitRun_eq_nil (l : List Char) (h : l.any Char.isDigit = false) :
    firstDigitRun l = [] := by
  induction l with
  | nil => rfl
  | cons c cs ih =>
    simp only [List.any_cons, Bool.or_eq_false_iff] at h
    have hc : c.isDigit = false := h.1
    simpa [firstDigitRun, List.dropWhile_cons, hc] using ih h.2

/-- C6: for every card whose click element's text contains a digit, the
extractor parses the first contiguous digit group as the clicks integer —
so `"1,234 clicks"` yields clicks = 1, not 1234 — and a card whose click
text has no digit, or with no click element at all, gets clicks 0. -/
theorem C6_parseClicks :
    parseClicks (some "1,234 clicks") = 1 ∧
    ¬ parseClicks (some "1,234 clicks") = 1234 ∧
    (∀ s : String, s.data.any Char.isDigit = true →
      parseClicks (some s) = digitsVal (firstDigitRun s.data)) ∧
    (∀ s : String, s.data.any Char.isDigit = false → parseClicks (some s) = 0) ∧
    parseClicks none = 0 := by
  refine ⟨by decide, by decide, ?_, ?_, rfl⟩
  · intro s h
    have hne := firstDigitRun_ne_nil s.data h
    cases heq : firstDigitRun s.data with
    | nil => exact absurd heq hne
    | cons c cs => simp [parseClicks, heq]
  · intro s h
    have hnil := firstDigitRun_eq_nil s.data h
    simp [parseClicks, hnil]

/-- Witness for C6: the text `"over 1,234 clicks"` contains digits and
parses to the value of its first digit group, namely 1. -/
theorem C6_witness :
    parseClicks (some "over 1,234 clicks") =
      digitsVal (firstDigitRun "over 1,234 clicks".data) :=
  (C6_parseClicks.2.2.1 "over 1,234 clicks") (by decide)

/-- JS `split`: a string without the separator is one single segment. -/
theorem jsSplitChar_of_not_mem (sep : Char) (l : List Char) (h : sep ∉ l) :
    jsSplitChar sep l = [l] := by
  induction l with
  | nil => rfl
  | cons c cs ih =>
    have hc : ¬ c = sep := fun e => h (e ▸ List.mem_cons_self c cs)
    have hcs : sep ∉ cs := fun m => h (List.mem_cons_of_mem c m)
    simp [jsSplitChar, hc, ih hcs]

/-- JS `split`: the text before the first separator becomes the first
segment, the rest is split recursively. -/
theorem jsSplitChar_append (sep : Char) (a b : List Char) (h : sep ∉ a) :
    jsSplitChar sep (a ++ sep :: b) = a :: jsSplitChar sep b := by
  induction a with
  | nil => simp [jsSplitChar]
  | cons c cs ih =>
    have hc : ¬ c = sep := fun e => h (e ▸ List.mem_cons_self c cs)
    have ihcs := ih (fun m => h (List.mem_cons_of_mem c m))
    simp [jsSplitChar, hc, ihcs]

theorem dropWhile_all_false (p : Char → Bool) (l : List Char)
    (h : ∀ c ∈ l, p c = false) : l.dropWhile p = l := by
  cases l with
  | nil => rfl
  | cons c cs => simp [List.dropWhile_cons, h c (List.mem_cons_self c cs)]

/-- JS `trim` leaves a string without whitespace unchanged. -/
theorem jsTrim_eq_self (l : List Char) (h : ∀ c ∈ l, c.isWhitespace = false) :
    jsTrim l = l := by
  rw [jsTrim, dropWhile_all_false _ _ h,
    dropWhile_all_false _ _ (fun c hc => h c (List.mem_reverse.mp hc)),
    List.reverse_reverse]

/-- A clean cookie token: non-empty, and free of `=`, `;` and whitespace. -/
def cleanToken (l : List Char) : Bool :=
  !l.isEmpty && l.all (fun c => !(c = '=') && !(c = ';') && !c.isWhitespace)

theorem cleanToken_props (l : List Char) (h : cleanToken l = true) :
    l ≠ [] ∧ ∀ c ∈ l, ¬ c = '=' ∧ ¬ c = ';' ∧ c.isWhitespace = false := by
  rw [cleanToken, Bool.and_eq_true, List.all_eq_true] at h
  constructor
  · intro he
    rw [he] at h
    simp at h
  · intro c hc
    have hcp := h.2 c hc
    simp only [Bool.and_eq_true, Bool.not_eq_true'] at hcp
    exact ⟨by simpa using hcp.1.1, by simpa using hcp.1.2, hcp.2⟩

/-- C3 counterexample: for the cookie header `"a=b=c"` the code keeps only
`"b"` as the value (`split('=')` splits at *every* `=` and the
destructuring takes the first two parts), while the claim's
split-on-first-`=` reading would keep `"b=c"`. -/
theorem C3_counterexample :
    cookiePairs (parseCookies "a=b=c") = [("a", "b")] ∧
    parseCookiesSpec "a=b=c" = [("a", "b=c")] ∧
    ¬ cookiePairs (parseCookies "a=b=c") = parseCookiesSpec "a=b=c" := by
  exact ⟨by decide, by decide, by decide⟩

/-- C3 (amended): `parseCookies` splits the header on `;`, splits each
segment on *every* `=` and keeps the first two parts as name and value —
so a value stops at the next `=`, and anything after a second `=` in a
segment is discarded; a well-formed `name=value` segment yields its one
credential pair, and malformed segments (no `=`, empty name, or empty
value) are silently dropped. -/
theorem C3_amended :
    (∀ name value : List Char, cleanToken name = true → cleanToken value = true →
      parseCookies (String.mk (name ++ '=' :: value)) =
        [mkCookie (String.mk name) (String.mk value)]) ∧
    (∀ name v1 v2 : List Char, cleanToken name = true → cleanToken v1 = true →
      cleanToken v2 = true →
      parseCookies (String.mk (name ++ '=' :: (v1 ++ '=' :: v2))) =
        [mkCookie (String.mk name) (String.mk v1)]) ∧
    parseCookies "a" = [] ∧ parseCookies "=b" = [] ∧ parseCookies "a=" = [] ∧
    parseCookies "" = [] := by
  refine ⟨?_, ?_, by decide, by decide, by decide, by decide⟩
  · intro name value hn hv
    obtain ⟨hn0, hnp⟩ := cleanToken_props name hn
    obtain ⟨hv0, hvp⟩ := cleanToken_props value hv
    have hsemi : ';' ∉ name ++ '=' :: value := by
      intro m
      rcases List.mem_append.mp m with m1 | m2
      · exact (hnp ';' m1).2.1 rfl
      · rcases List.mem_cons.mp m2 with e | m3
        · exact absurd e.symm (by decide)
        · exact (hvp ';' m3).2.1 rfl
    have hws : ∀ c ∈ name ++ '=' :: value, c.isWhitespace = false := by
      intro c m
      rcases List.mem_append.mp m with m1 | m2
      · exact (hnp c m1).2.2
      · rcases List.mem_cons.mp m2 with e | m3
        · rw [e]; decide
        · exact (hvp c m3).2.2
    have heqn : '=' ∉ name := fun m => (hnp '=' m).1 rfl
    have heqv : '=' ∉ value := fun m => (hvp '=' m).1 rfl
    rw [parseCookies]
    have hdata : (String.mk (name ++ '=' :: value)).data = name ++ '=' :: value := rfl
    rw [hdata, jsSplitChar_of_not_mem ';' _ hsemi]
    have hseg : parseCookieSegment (name ++ '=' :: value) =
        some (mkCookie (String.mk name) (String.mk value)) := by
      rw [parseCookieSegment, jsTrim_eq_self _ hws,
        jsSplitChar_append '=' name value heqn,
        jsSplitChar_of_not_mem '=' value heqv]
      simp [hn0, hv0, jsTrim_eq_self name (fun c hc => (hnp c hc).2.2),
        jsTrim_eq_self value (fun c hc => (hvp c hc).2.2)]
    simp [List.filterMap_cons, hseg]
  · intro name v1 v2 hn h1 h2
    obtain ⟨hn0, hnp⟩ := cleanToken_props name hn
    obtain ⟨h10, h1p⟩ := cleanToken_props v1 h1
    obtain ⟨h20, h2p⟩ := cleanToken_props v2 h2
    have hsemi : ';' ∉ name ++ '=' :: (v1 ++ '=' :: v2) := by
      intro m
      rcases List.mem_append.mp m with m1 | m2
      · exact (hnp ';' m1).2.1 rfl
      · rcases List.mem_cons.mp m2 with e | m3
        · exact absurd e.symm (by decide)
        · rcases List.mem_append.mp m3 with m4 | m5
          · exact (h1p ';' m4).2.1 rfl
          · rcases List.mem_cons.mp m5 with e | m6
            · exact absurd e.symm (by decide)
            · exact (h2p ';' m6).2.1 rfl
    have hws : ∀ c ∈ name ++ '=' :: (v1 ++ '=' :: v2), c.isWhitespace = false := by
      intro c m
      rcases List.mem_append.mp m with m1 | m2
      · exact (hnp c m1).2.2
      · rcases List.mem_cons.mp m2 with e | m3
        · rw [e]; decide
        · rcases List.mem_append.mp m3 with m4 | m5
          · exact (h1p c m4).2.2
          · rcases List.mem_cons.mp m5 with e | m6
            · rw [e]; decide
            · exact (h2p c m6).2.2
    have heqn : '=' ∉ name := fun m => (hnp '=' m).1 rfl
    have heq1 : '=' ∉ v1 := fun m => (h1p '=' m).1 rfl
    have heq2 : '=' ∉ v2 := fun m => (h2p '=' m).1 rfl
    rw [parseCookies]
    have hdata : (String.mk (name ++ '=' :: (v1 ++ '=' :: v2))).data =
        name ++ '=' :: (v1 ++ '=' :: v2) := rfl
    rw [hdata, jsSplitChar_of_not_mem ';' _ hsemi]
    have hseg : parseCookieSegment (name ++ '=' :: (v1 ++ '=' :: v2)) =
        some (mkCookie (String.mk name) (String.mk v1)) := by
      rw [parseCookieSegment, jsTrim_eq_self _ hws,
        jsSplitChar_append '=' name (v1 ++ '=' :: v2) heqn,
        jsSplitChar_append '=' v1 v2 heq1,
        jsSplitChar_of_not_mem '=' v2 heq2]
      simp [hn0, h10, jsTrim_eq_self name (fun c hc => (hnp c hc).2.2),
        jsTrim_eq_self v1 (fun c hc => (h1p c hc).2.2)]
    simp [List.filterMap_cons, hseg]

/-- Witness for C3 (amended): the well-formed segment `session=abc123`
yields exactly its one credential pair. -/
theorem C3_witness :
    parseCookies (String.mk ("session".data ++ '=' :: "abc123".data)) =
      [mkCookie (String.mk "session".data) (String.mk "abc123".data)] :=
  C3_amended.1 "session".data "abc123".data (by decide) (by decide)

end Scrape
